import Mathlib

/-!
Shallow embedding of the convert-videos conversion engine
(src/converter.py and src/progress_tracker.py).

Python floats are modelled as rationals.  Each call the Python code makes to
the monotonic clock is modelled by an explicit rational argument.  Progress
and log callbacks are assumed to be attached: the code paths guarded by a
missing callback only skip delivery and touch no other state.
-/

namespace ConvertVideos

/-- Python truthiness test (x and x is greater than 0) on an optional
integer: returns the value when it is present and positive, otherwise
none. -/
def posOf (x : Option Int) : Option Int :=
  match x with
  | some v => if 0 < v then some v else none
  | none => none

/-- Mutable state of a StageProgressTracker (progress_tracker.py, lines
14 to 33).  The emit callback itself is kept outside the state. -/
structure TrackerState where
  stage_ratio : ℚ
  last_emit_ratio : ℚ
  last_emit_time : ℚ
  last_real_ratio : ℚ
  last_real_time : ℚ
  stage_start : ℚ
deriving Repr, DecidableEq

/-- Tracker state right after construction at clock value now. -/
def TrackerState.init (now : ℚ) : TrackerState :=
  { stage_ratio := 0
    last_emit_ratio := -1
    last_emit_time := now
    last_real_ratio := 0
    last_real_time := now
    stage_start := now }

/-- Embedding of the private emit helper (progress_tracker.py, lines 129
to 144): clamp the ratio, apply the throttle, update the emission
bookkeeping and return the emitted global ratio, if any. -/
def emitStep (base extent : ℚ) (s : TrackerState) (ratio : ℚ) (force : Bool)
    (now : ℚ) : TrackerState × Option ℚ :=
  let r := max 0 (min 1 ratio)
  if force = true ∨ 1/1000 ≤ r - s.last_emit_ratio ∨ 1/5 ≤ now - s.last_emit_time ∨ 1 ≤ r then
    ({ s with last_emit_ratio := r, last_emit_time := now }, some (base + r * extent))
  else (s, none)

/-- Guard for taking a synthetic step (progress_tracker.py, lines 42 to 43). -/
def needsSyntheticUpdate (s : TrackerState) (now threshold : ℚ) : Bool :=
  decide (threshold ≤ now - s.last_real_time)

/-- The target ratio computed by synthetic_step (progress_tracker.py,
lines 51 to 62). -/
def syntheticTarget (s : TrackerState) (durationMs frameEstimate : Option Int)
    (now : ℚ) : ℚ :=
  let elapsed := now - s.stage_start
  match posOf durationMs with
  | some d => max s.stage_ratio (min 1 (elapsed / ((d : ℚ) / 1000)))
  | none =>
    match posOf frameEstimate with
    | some f => max s.stage_ratio (min 1 (elapsed / max (1/2) ((f : ℚ) / max 10 (f : ℚ))))
    | none => min 1 (s.stage_ratio + 1/100)

/-- Embedding of synthetic_step (progress_tracker.py, lines 45 to 70):
raise the stage ratio to the synthetic target when the target is ahead,
and force-emit in that case. -/
def syntheticStep (base extent : ℚ) (s : TrackerState)
    (durationMs frameEstimate : Option Int) (now : ℚ) : TrackerState × Option ℚ :=
  let target := syntheticTarget s durationMs frameEstimate now
  if s.stage_ratio < target then
    emitStep base extent { s with stage_ratio := target } target true now
  else (s, none)

/-- Characters removed by the Python str.strip method. -/
def stripChars (l : List Char) : List Char :=
  ((l.dropWhile Char.isWhitespace).reverse.dropWhile Char.isWhitespace).reverse

/-- Model of the Python str.strip method. -/
def pyStrip (s : String) : String :=
  ⟨stripChars s.data⟩

/-- Model of splitting a string on a one-character separator, as the
Python str.split method does. -/
def splitOnChar (sep : Char) : List Char → List (List Char)
  | [] => [[]]
  | c :: cs =>
    if c = sep then [] :: splitOnChar sep cs
    else
      match splitOnChar sep cs with
      | [] => [[c]]
      | h :: t => (c :: h) :: t

/-- Value of one decimal digit character. -/
def digitVal (c : Char) : Option Nat :=
  if '0' ≤ c ∧ c ≤ '9' then some (c.toNat - '0'.toNat) else none

/-- Accumulating decimal parser over a character list. -/
def parseDigitsAux : List Char → Nat → Option Nat
  | [], acc => some acc
  | c :: cs, acc =>
    match digitVal c with
    | some d => parseDigitsAux cs (acc * 10 + d)
    | none => none

/-- Nonempty all-digit character list parsed as a natural number. -/
def parseNatChars (l : List Char) : Option Nat :=
  match l with
  | [] => none
  | _ => parseDigitsAux l 0

/-- Model of the Python int constructor on a character list: an optional
sign followed by decimal digits. -/
def parseIntChars (l : List Char) : Option Int :=
  match l with
  | '-' :: rest => (parseNatChars rest).map (fun n => -(n : Int))
  | '+' :: rest => (parseNatChars rest).map (fun n => (n : Int))
  | _ => (parseNatChars l).map (fun n => (n : Int))

/-- Model of the Python int constructor on a string (it ignores
surrounding whitespace). -/
def pyInt (s : String) : Option Int :=
  parseIntChars (stripChars s.data)

/-- Model of the Python float constructor on the plain decimal strings
ffmpeg writes in the out_time field. -/
def pyFloat (s : String) : Option ℚ :=
  match splitOnChar '.' (stripChars s.data) with
  | [a] => (parseIntChars a).map (fun v => (v : ℚ))
  | [a, b] =>
    match parseIntChars a, parseNatChars b with
    | some va, some vb =>
      let frac : ℚ := (vb : ℚ) / ((10 : ℚ) ^ b.length)
      some (if a.head? = some '-' then (va : ℚ) - frac else (va : ℚ) + frac)
    | _, _ => none
  | _ => none

/-- Parsing of an out_time value H:MM:SS.fraction into seconds
(progress_tracker.py, lines 100 to 101). -/
def parseOutTime (text : String) : Option ℚ :=
  match splitOnChar ':' text.data with
  | [h, m, s] =>
    match parseIntChars h, parseIntChars m, pyFloat ⟨s⟩ with
    | some hv, some mv, some sv => some ((hv : ℚ) * 3600 + (mv : ℚ) * 60 + sv)
    | _, _, _ => none
  | _ => none

/-- The ratio derived from one key=value progress line, or none when the
line yields no usable signal (progress_tracker.py, lines 80 to 106). -/
def derivedRatio (key valueText : String) (frameEstimate durationMs : Option Int) :
    Option ℚ :=
  let text := pyStrip valueText
  if (posOf frameEstimate).isSome = true ∧ key = "frame" then
    match posOf frameEstimate, pyInt text with
    | some f, some current => some ((current : ℚ) / (f : ℚ))
    | _, _ => none
  else if (posOf durationMs).isSome = true ∧ (key = "out_time_ms" ∨ key = "out_time_us") then
    match posOf durationMs, pyInt text with
    | some d, some v =>
      some (((v : ℚ) / (if key = "out_time_ms" then 1 else 1000)) / (d : ℚ))
    | _, _ => none
  else if (posOf durationMs).isSome = true ∧ key = "out_time" then
    match posOf durationMs, parseOutTime text with
    | some d, some seconds => some ((seconds * 1000) / (d : ℚ))
    | _, _ => none
  else if key = "progress" ∧ text = "end" then some 1
  else none

/-- Embedding of try_update_from_ffmpeg (progress_tracker.py, lines 72 to
120).  Returns the Python return value, the new tracker state and the
emitted global ratio, if any. -/
def tryUpdateFromFfmpeg (base extent : ℚ) (s : TrackerState) (key valueText : String)
    (frameEstimate durationMs : Option Int) (now : ℚ) :
    Bool × TrackerState × Option ℚ :=
  match derivedRatio key valueText frameEstimate durationMs with
  | none => (false, s, none)
  | some r0 =>
    let r2 := min 1 (max r0 s.last_real_ratio)
    let s1 := { s with stage_ratio := r2, last_real_ratio := r2, last_real_time := now }
    let r := emitStep base extent s1 r2 false now
    (true, r.1, r.2)

/-- Embedding of finish (progress_tracker.py, lines 122 to 127): a forced
terminal emission at ratio 1. -/
def finishStep (base extent : ℚ) (s : TrackerState) (now : ℚ) :
    TrackerState × Option ℚ :=
  emitStep base extent s 1 true now

/-- The Python exception classes raised by converter.py.  The three
configuration errors are ConverterError or subclasses of it;
ConversionCancelled is a sibling, not a subclass. -/
inductive PyExc
  | converterError (msg : String)
  | invalidExportFormat (invalid : List String)
  | invalidScaleMode (mode : String)
  | conversionCancelled
deriving Repr, DecidableEq

/-- Subclass test against ConverterError (converter.py, lines 21 to 44). -/
def PyExc.isConverterError : PyExc → Bool
  | .conversionCancelled => false
  | _ => true

/-- Observable state of ControlSignals (converter.py, lines 100 to 105):
the two flags, whether a process is attached, and the recorded reason. -/
structure SignalsState where
  pause_set : Bool
  cancel_set : Bool
  process_attached : Bool
  cancel_reason : Option String
deriving Repr, DecidableEq

/-- Embedding of ControlSignals.request_cancel (converter.py, lines 128 to
136).  The boolean result records whether termination of an attached
process was attempted. -/
def requestCancel (s : SignalsState) (reason : Option String) : SignalsState × Bool :=
  let r :=
    match reason with
    | some t => if t = "" then "转换已被终止" else t
    | none => "转换已被终止"
  ({ s with cancel_reason := some r, cancel_set := true, pause_set := true },
   s.process_attached)

/-- Overall progress computed by TaskProgressEmitter.emit
(progress_tracker.py, lines 170 and 184). -/
def overallProgress (taskIndex totalTasks : Nat) (progressValue : ℚ) : ℚ :=
  let clamped := max 0 (min 1 progressValue)
  min 1 (((taskIndex : ℚ) - 1 + clamped) / (totalTasks : ℚ))

/-- Result of one call to TaskProgressEmitter.emit under a fixed signal
state: the call blocks forever, raises an exception, or delivers a report
with the given overall progress. -/
inductive EmitOutcome
  | blocked
  | raised (e : PyExc)
  | delivered (overall : ℚ)
deriving Repr, DecidableEq

/-- Embedding of TaskProgressEmitter.emit (progress_tracker.py, lines 169
to 193) evaluated under a signal state that no other thread changes while
the call runs.  The pause-wait loop exits exactly when the pause flag or
the cancel flag is set; a set cancel flag then raises ConversionCancelled. -/
def taskEmit (sig : Option SignalsState) (taskIndex totalTasks : Nat)
    (progressValue : ℚ) : EmitOutcome :=
  match sig with
  | none => .delivered (overallProgress taskIndex totalTasks progressValue)
  | some s =>
    if s.pause_set = false ∧ s.cancel_set = false then .blocked
    else if s.cancel_set = true then .raised .conversionCancelled
    else .delivered (overallProgress taskIndex totalTasks progressValue)

/-- Python int conversion of a float, truncating toward zero. -/
def pyTrunc (q : ℚ) : Int :=
  if 0 ≤ q then ⌊q⌋ else -⌊-q⌋

/-- The byte budget used by the APNG size heuristic: 2 MiB
(converter.py, lines 419 and 432). -/
def apngBudgetBytes : ℚ := 2 * 1024 * 1024

/-- Frame-rate lowering loop of _calculate_apng_params (converter.py,
lines 440 to 448).  State is (adjusted fps, adjusted frames, estimated
size); the fuel argument only bounds the iteration count and is chosen
large enough for every frame rate the loop can meet below 6 times
(5/4) to the power of the fuel. -/
def apngLoop (w h : Int) (fps : ℚ) (frameEstimate : Int) :
    Nat → ℚ → Int → ℚ → ℚ × Int × ℚ
  | 0, adjFps, adjFrames, est => (adjFps, adjFrames, est)
  | fuel + 1, adjFps, adjFrames, est =>
    if 6 < adjFps ∧ apngBudgetBytes < est then
      let adjFps2 := max 6 (adjFps * (4/5))
      let adjFrames2 := pyTrunc ((frameEstimate : ℚ) * (adjFps2 / fps))
      let est2 := (w : ℚ) * (h : ℚ) * (1/2) * (adjFrames2 : ℚ)
      apngLoop w h fps frameEstimate fuel adjFps2 adjFrames2 est2
    else (adjFps, adjFrames, est)

/-- Embedding of _calculate_apng_params (converter.py, lines 418 to 458):
returns the adjusted frame rate and the optional frame cap. -/
def calculateApngParams (w h : Int) (fps : ℚ) (frameEstimate : Option Int) :
    ℚ × Option Int :=
  match posOf frameEstimate with
  | none => (fps, none)
  | some fe =>
    let est := (w : ℚ) * (h : ℚ) * (1/2) * (fe : ℚ)
    if est ≤ apngBudgetBytes then (fps, none)
    else
      let r := apngLoop w h fps fe 100 fps fe est
      if r.2.2 ≤ apngBudgetBytes then (r.1, none)
      else
        let maxFrames := pyTrunc (apngBudgetBytes / ((w : ℚ) * (h : ℚ) * (1/2)))
        let finalFrames := if maxFrames < r.2.1 then max 30 maxFrames else r.2.1
        (r.1, some finalFrames)

/-- Export formats tried when the request names none
(converter.py, line 32). -/
def defaultExportFormats : List String := ["gif", "apng"]

/-- Recognized export formats (converter.py, line 33). -/
def validExportFormats : List String := ["gif", "apng", "png_sequence"]

/-- Recognized scale modes (converter.py, line 35). -/
def validScaleModes : List String := ["center_crop", "stretch", "force_aspect"]

/-- Recognized quality presets of _gif_quality_filter (converter.py,
lines 461 to 488). -/
def validQualities : List String := ["low", "medium", "balanced", "high", "ultra"]

/-- Per-format output subdirectory names (converter.py, lines 52 to 56
and 629). -/
def formatSubdir (fmt : String) : String :=
  if fmt = "gif" then "gif"
  else if fmt = "apng" then "apng"
  else if fmt = "png_sequence" then "png_sequence"
  else fmt

/-- Order-preserving deduplication keeping first occurrences, as the
Python dict.fromkeys idiom does (converter.py, line 617). -/
def dedupAux (seen : List String) : List String → List String
  | [] => []
  | x :: xs =>
    if x ∈ seen then dedupAux seen xs
    else x :: dedupAux (x :: seen) xs

/-- Resolution of the requested export formats (converter.py, lines 616
to 619): default when empty, then first-occurrence deduplication, then
the dead second default fallback. -/
def resolveExportFormats (requested : List String) : List String :=
  let raw := if requested = [] then defaultExportFormats else requested
  let deduped := dedupAux [] raw
  if deduped = [] then defaultExportFormats else deduped

/-- Last component of a path string, as the Python Path name attribute. -/
def pathName (p : String) : String :=
  ⟨(splitOnChar '/' p.data).getLastD []⟩

/-- Lowercasing used in the output-directory-name comparison
(converter.py, line 606). -/
def lowerStr (s : String) : String :=
  ⟨s.data.map Char.toLower⟩

/-- The request fields that reach convert_files
(converter.py, lines 139 to 149); tasks are reduced to their display
names, which is all the modelled pipeline reads from them. -/
structure RequestModel where
  tasks : List String
  output_dir : String
  width : Int
  height : Int
  fps : ℚ
  quality : String
  scale_mode : String
  export_formats : List String
deriving Repr, DecidableEq

/-- Filesystem model: the list of directories that exist, plus the list
of directories created so far by the call, in creation order.  mkdir with
parents and exist_ok set changes nothing when the directory exists. -/
def mkdirP : List String × List String → String → List String × List String
  | (fs, created), p => if p ∈ fs then (fs, created) else (fs ++ [p], created ++ [p])

/-- Directory that receives the per-format subdirectories
(converter.py, lines 606 to 610). -/
def targetOutputDir (outputDir : String) : String :=
  if lowerStr (pathName outputDir) = "output" then outputDir
  else outputDir ++ "/output"

/-- Embedding of the validation and directory-layout prefix of
convert_files (converter.py, lines 601 to 657), threading the filesystem
model.  Returns the filesystem state plus either the raised error or the
resolved export-format list.  Locating the ffmpeg binary is assumed to
succeed. -/
def setupPhase (req : RequestModel) (fs0 : List String) :
    (List String × List String) × Except PyExc (List String) :=
  let st1 := mkdirP (fs0, []) req.output_dir
  let st2 :=
    if lowerStr (pathName req.output_dir) = "output" then st1
    else mkdirP st1 (req.output_dir ++ "/output")
  if req.tasks = [] then (st2, .error (.converterError "未选择任何待转换任务"))
  else
    let fmts := resolveExportFormats req.export_formats
    let invalid := fmts.filter (fun f => f ∉ validExportFormats)
    if invalid ≠ [] then (st2, .error (.invalidExportFormat invalid))
    else
      let tdir := targetOutputDir req.output_dir
      let st3 := fmts.foldl (fun st f => mkdirP st (tdir ++ "/" ++ formatSubdir f)) st2
      if req.scale_mode ∉ validScaleModes then
        (st3, .error (.invalidScaleMode req.scale_mode))
      else if req.quality ∉ validQualities then
        (st3, .error (.converterError "质量参数必须是 low, medium, high 或 ultra"))
      else (st3, .ok fmts)

/-- Fixed preparation allowance of the per-task progress window
(converter.py, line 654). -/
def prepBase : ℚ := 1/20

/-- Fixed share of the per-task progress window given to the format
stages (converter.py, line 655). -/
def formatsExtent : ℚ := 9/10

/-- Width of one format stage in the per-task progress window
(converter.py, line 657). -/
def formatExtent (formatCount : Nat) : ℚ :=
  if formatCount = 0 then 0 else formatsExtent / (formatCount : ℚ)

/-- Start of the format stage with the given index in the per-task
progress window (converter.py, line 706). -/
def stageBase (formatCount fmtIdx : Nat) : ℚ :=
  prepBase + formatExtent formatCount * (fmtIdx : ℚ)

/-- Failure message built on a non-zero ffmpeg exit (converter.py, lines
815 to 822).  The empty diagnostic stream is replaced by a fixed text, as
the Python or-expression does. -/
def failureMessage (fmt taskName stderrText : String) : String :=
  let detail := if stderrText = "" then "未知错误" else stderrText
  if fmt = "gif" then "转换 GIF 失败（" ++ taskName ++ "）：" ++ detail
  else if fmt = "apng" then "转换 APNG 失败（" ++ taskName ++ "）：" ++ detail
  else "导出 PNG 序列失败（" ++ taskName ++ "）：" ++ detail

/-- Containment of one string inside another. -/
def containsStr (big small : String) : Prop :=
  small.data <:+: big.data

/-- Marker naming the format being produced inside the failure message. -/
def formatMarker (fmt : String) : String :=
  if fmt = "gif" then "GIF"
  else if fmt = "apng" then "APNG"
  else "PNG 序列"

/-- Record of one failed stage: its (task number, format index) position,
the format, the task display name and the captured diagnostic stream. -/
structure StageFailure where
  taskIndex : Nat
  fmtIndex : Nat
  fmt : String
  taskName : String
  stderrText : String
deriving Repr, DecidableEq

/-- Inner format loop of convert_files for one task (converter.py, lines
705 to 823), abstracted over an oracle giving each launched process exit
code and captured diagnostics.  Returns the stages launched, in order,
and the first failure, if any; on a failure the loop body raises, so no
later stage of the list is reached. -/
def runFmts (oracle : Nat → Nat → Int × String) (ti : Nat) (name : String) :
    Nat → List String → List (Nat × Nat) × Option StageFailure
  | _, [] => ([], none)
  | fj, fmt :: rest =>
    let r := oracle ti fj
    if r.1 ≠ 0 then ([(ti, fj)], some ⟨ti, fj, fmt, name, r.2⟩)
    else
      let res := runFmts oracle ti name (fj + 1) rest
      ((ti, fj) :: res.1, res.2)

/-- Outer task loop of convert_files (converter.py, lines 659 to 825):
tasks are processed in order and the first failing stage aborts the whole
batch. -/
def runTasks (oracle : Nat → Nat → Int × String) (fmts : List String) :
    Nat → List String → List (Nat × Nat) × Option StageFailure
  | _, [] => ([], none)
  | ti, name :: rest =>
    let fr := runFmts oracle ti name 0 fmts
    match fr.2 with
    | some f => (fr.1, some f)
    | none =>
      let tr := runTasks oracle fmts (ti + 1) rest
      (fr.1 ++ tr.1, tr.2)

/-- Whole convert_files call (converter.py, lines 596 to 825), modelled
over the process oracle: the setup phase, then the task/format loop.
Returns the filesystem state, the launched stages and the outcome. -/
def convertFilesModel (req : RequestModel) (oracle : Nat → Nat → Int × String)
    (fs0 : List String) :
    (List String × List String) × List (Nat × Nat) × Except PyExc Unit :=
  match setupPhase req fs0 with
  | (st, .error e) => (st, [], .error e)
  | (st, .ok fmts) =>
    let run := runTasks oracle fmts 1 req.tasks
    match run.2 with
    | some f => (st, run.1, .error (.converterError (failureMessage f.fmt f.taskName f.stderrText)))
    | none => (st, run.1, .ok ())

theorem emitStep_stage_ratio (base extent : ℚ) (s : TrackerState) (r : ℚ) (f : Bool)
    (now : ℚ) : (emitStep base extent s r f now).1.stage_ratio = s.stage_ratio := by
  simp only [emitStep]
  split <;> rfl

theorem emitStep_last_real_ratio (base extent : ℚ) (s : TrackerState) (r : ℚ) (f : Bool)
    (now : ℚ) : (emitStep base extent s r f now).1.last_real_ratio = s.last_real_ratio := by
  simp only [emitStep]
  split <;> rfl

theorem emitStep_last_real_time (base extent : ℚ) (s : TrackerState) (r : ℚ) (f : Bool)
    (now : ℚ) : (emitStep base extent s r f now).1.last_real_time = s.last_real_time := by
  simp only [emitStep]
  split <;> rfl

theorem tryUpdate_some (base extent : ℚ) (s : TrackerState) (key valueText : String)
    (fe dm : Option Int) (now : ℚ) (p : ℚ)
    (hd : derivedRatio key valueText fe dm = some p) :
    (tryUpdateFromFfmpeg base extent s key valueText fe dm now).1 = true
    ∧ (tryUpdateFromFfmpeg base extent s key valueText fe dm now).2.1.stage_ratio
        = min 1 (max p s.last_real_ratio)
    ∧ (tryUpdateFromFfmpeg base extent s key valueText fe dm now).2.1.last_real_ratio
        = min 1 (max p s.last_real_ratio)
    ∧ (tryUpdateFromFfmpeg base extent s key valueText fe dm now).2.1.last_real_time = now := by
  refine ⟨?_, ?_, ?_, ?_⟩ <;>
    simp [tryUpdateFromFfmpeg, hd, emitStep_stage_ratio, emitStep_last_real_ratio,
      emitStep_last_real_time]

/-- Claim C4: TaskProgressEmitter.emit delivers a report whose overall
progress is min(1, ((i-1) + clamp(p,0,1)) / N); for task i of N this
value never exceeds i/N and never drops below (i-1)/N. -/
theorem c4_overall_progress (i N : Nat) (p : ℚ) (h1 : 1 ≤ i) (hiN : i ≤ N) :
    taskEmit none i N p = .delivered (overallProgress i N p)
    ∧ overallProgress i N p = min 1 (((i : ℚ) - 1 + max 0 (min 1 p)) / (N : ℚ))
    ∧ ((i : ℚ) - 1) / (N : ℚ) ≤ overallProgress i N p
    ∧ overallProgress i N p ≤ (i : ℚ) / (N : ℚ) := by
  have hN0 : (0 : ℚ) < (N : ℚ) := by
    have hN : 1 ≤ N := le_trans h1 hiN
    exact_mod_cast hN
  have hiq : (i : ℚ) ≤ (N : ℚ) := by exact_mod_cast hiN
  have hi1 : (1 : ℚ) ≤ (i : ℚ) := by exact_mod_cast h1
  have hc0 : 0 ≤ max 0 (min 1 p) := le_max_left _ _
  have hc1 : max 0 (min 1 p) ≤ 1 := max_le (by norm_num) (min_le_left _ _)
  refine ⟨rfl, rfl, ?_, ?_⟩
  · apply le_min
    · rw [div_le_one hN0]
      linarith
    · apply div_le_div_of_nonneg_right _ hN0.le
      linarith
  · calc min 1 (((i : ℚ) - 1 + max 0 (min 1 p)) / (N : ℚ))
        ≤ ((i : ℚ) - 1 + max 0 (min 1 p)) / (N : ℚ) := min_le_right _ _
      _ ≤ (i : ℚ) / (N : ℚ) := by
          apply div_le_div_of_nonneg_right _ hN0.le
          linarith

/-- Claim C7: request_cancel sets the cancel flag, force-sets the pause
flag, records a non-empty reason, attempts to terminate exactly when a
process is attached, and a subsequent emit call raises
ConversionCancelled, which is not a ConverterError subclass, instead of
delivering the report. -/
theorem c7_request_cancel (s : SignalsState) (reason : Option String) (i N : Nat) (p : ℚ) :
    (requestCancel s reason).1.cancel_set = true
    ∧ (requestCancel s reason).1.pause_set = true
    ∧ (∃ r, (requestCancel s reason).1.cancel_reason = some r ∧ r ≠ "")
    ∧ (requestCancel s reason).2 = s.process_attached
    ∧ taskEmit (some (requestCancel s reason).1) i N p = .raised .conversionCancelled
    ∧ PyExc.isConverterError .conversionCancelled = false := by
  refine ⟨rfl, rfl, ?_, rfl, rfl, rfl⟩
  match reason with
  | none => exact ⟨"转换已被终止", rfl, by decide⟩
  | some t =>
    by_cases ht : t = ""
    · exact ⟨"转换已被终止", by simp [requestCancel, ht], by decide⟩
    · exact ⟨t, by simp [requestCancel, ht], ht⟩

/-- Claim C10: a key=value pair from which no ratio is derived (unknown
key, frame key without a positive frame estimate, timing keys without a
positive duration, or an unparseable value) makes try_update_from_ffmpeg
return False, leave the whole tracker state unchanged and emit nothing. -/
theorem c10_rejected_update (base extent : ℚ) (s : TrackerState) (key valueText : String)
    (fe dm : Option Int) (now : ℚ) :
    (derivedRatio key valueText fe dm = none →
        tryUpdateFromFfmpeg base extent s key valueText fe dm now = (false, s, none))
    ∧ (key ∉ (["frame", "out_time_ms", "out_time_us", "out_time", "progress"] : List String) →
        derivedRatio key valueText fe dm = none)
    ∧ (key = "frame" → posOf fe = none → derivedRatio key valueText fe dm = none)
    ∧ ((key = "out_time_ms" ∨ key = "out_time_us" ∨ key = "out_time") → posOf dm = none →
        derivedRatio key valueText fe dm = none)
    ∧ (key = "frame" → pyInt (pyStrip valueText) = none →
        derivedRatio key valueText fe dm = none) := by
  refine ⟨?_, ?_, ?_, ?_, ?_⟩
  · intro h
    simp only [tryUpdateFromFfmpeg, h]
  · intro h
    simp only [List.mem_cons, List.mem_singleton, not_or] at h
    obtain ⟨h1, h2, h3, h4, h5, -⟩ := h
    simp [derivedRatio, h1, h2, h3, h4, h5]
  · intro hk hfe
    subst hk
    simp [derivedRatio, hfe]
  · intro hk hdm
    rcases hk with hk | hk | hk <;> subst hk <;> simp [derivedRatio, hdm]
  · intro hk hparse
    subst hk
    cases hpos : posOf fe with
    | none => simp [derivedRatio, hpos]
    | some f => simp [derivedRatio, hpos, hparse]

def c5u1 : Bool × TrackerState × Option ℚ :=
  tryUpdateFromFfmpeg 0 1 (TrackerState.init 0) "frame" "50" (some 200) none 1

def c5u2 : Bool × TrackerState × Option ℚ :=
  tryUpdateFromFfmpeg 0 1 c5u1.2.1 "frame" "40" (some 200) none 2

/-- Claim C5: an accepted real update sets the stage ratio to
min(1, max(parsed, last_real_ratio)) and makes it the new last-real
anchor; concretely, frame=50 with estimate 200 yields ratio 1/4 and a
following frame=40 leaves the ratio at 1/4. -/
theorem c5_real_update (base extent : ℚ) (s : TrackerState) (key valueText : String)
    (fe dm : Option Int) (now : ℚ) (p : ℚ)
    (hd : derivedRatio key valueText fe dm = some p) :
    ((tryUpdateFromFfmpeg base extent s key valueText fe dm now).1 = true
      ∧ (tryUpdateFromFfmpeg base extent s key valueText fe dm now).2.1.stage_ratio
          = min 1 (max p s.last_real_ratio)
      ∧ (tryUpdateFromFfmpeg base extent s key valueText fe dm now).2.1.last_real_ratio
          = min 1 (max p s.last_real_ratio))
    ∧ (c5u1.1 = true ∧ c5u1.2.1.stage_ratio = 1/4 ∧ c5u1.2.1.last_real_ratio = 1/4
      ∧ c5u2.1 = true ∧ c5u2.2.1.stage_ratio = 1/4) := by
  have hgen := tryUpdate_some base extent s key valueText fe dm now p hd
  have h50 : derivedRatio "frame" "50" (some 200) none = some ((50 : ℚ) / 200) := by
    have e1 : pyStrip "50" = "50" := by decide
    have e2 : pyInt "50" = some 50 := by decide
    norm_num [derivedRatio, posOf, e1, e2]
  have h40 : derivedRatio "frame" "40" (some 200) none = some ((40 : ℚ) / 200) := by
    have e1 : pyStrip "40" = "40" := by decide
    have e2 : pyInt "40" = some 40 := by decide
    norm_num [derivedRatio, posOf, e1, e2]
  have hu1 := tryUpdate_some 0 1 (TrackerState.init 0) "frame" "50" (some 200) none 1 _ h50
  have hu1r : c5u1.2.1.last_real_ratio = 1/4 := by
    rw [show c5u1 = tryUpdateFromFfmpeg 0 1 (TrackerState.init 0) "frame" "50"
      (some 200) none 1 from rfl, hu1.2.2.1]
    norm_num [TrackerState.init]
  have hu2 := tryUpdate_some 0 1 c5u1.2.1 "frame" "40" (some 200) none 2 _ h40
  refine ⟨⟨hgen.1, hgen.2.1, hgen.2.2.1⟩, hu1.1, ?_, hu1r, hu2.1, ?_⟩
  · rw [show c5u1 = tryUpdateFromFfmpeg 0 1 (TrackerState.init 0) "frame" "50"
      (some 200) none 1 from rfl, hu1.2.1]
    norm_num [TrackerState.init]
  · rw [show c5u2 = tryUpdateFromFfmpeg 0 1 c5u1.2.1 "frame" "40"
      (some 200) none 2 from rfl, hu2.2.1, hu1r]
    norm_num

/-- Iterated synthetic fallback ticks: n calls to synthetic_step with no
duration and no frame estimate, at the given clock readings. -/
def fallbackRun (base extent : ℚ) (nows : Nat → ℚ) : Nat → TrackerState → TrackerState
  | 0, s => s
  | n + 1, s =>
    fallbackRun base extent nows n (syntheticStep base extent s none none (nows n)).1

theorem fallback_stage_ratio (base extent : ℚ) (s : TrackerState) (now : ℚ) :
    (syntheticStep base extent s none none now).1.stage_ratio
      = if s.stage_ratio < min 1 (s.stage_ratio + 1/100) then min 1 (s.stage_ratio + 1/100)
        else s.stage_ratio := by
  simp only [syntheticStep, syntheticTarget, posOf]
  split
  · rw [emitStep_stage_ratio]
  · rfl

theorem fallback_tick_min (r : ℚ) (k : Nat) (h : r = min 1 ((k : ℚ) / 100)) :
    (if r < min 1 (r + 1/100) then min 1 (r + 1/100) else r)
      = min 1 (((k : ℚ) + 1) / 100) := by
  rcases le_or_lt 100 k with hk | hk
  · have hk100 : (100 : ℚ) ≤ (k : ℚ) := by exact_mod_cast hk
    have hge : (1 : ℚ) ≤ (k : ℚ) / 100 := by
      rw [le_div_iff₀ (by norm_num : (0:ℚ) < 100)]
      linarith
    have hge1 : (1 : ℚ) ≤ ((k : ℚ) + 1) / 100 := by
      rw [le_div_iff₀ (by norm_num : (0:ℚ) < 100)]
      linarith
    have hr1 : r = 1 := by rw [h, min_eq_left hge]
    rw [hr1, min_eq_left hge1, if_neg]
    simp only [not_lt]
    exact min_le_left _ _
  · have hklt : (k : ℚ) < 100 := by exact_mod_cast hk
    have hle : (k : ℚ) / 100 ≤ 1 := by
      rw [div_le_one (by norm_num : (0:ℚ) < 100)]
      linarith
    have hr : r = (k : ℚ) / 100 := by rw [h, min_eq_right hle]
    have hsum : r + 1/100 = ((k : ℚ) + 1) / 100 := by rw [hr]; ring
    have hk1 : (k : ℚ) + 1 ≤ 100 := by exact_mod_cast hk
    have hle1 : ((k : ℚ) + 1) / 100 ≤ 1 := by
      rw [div_le_one (by norm_num : (0:ℚ) < 100)]
      linarith
    have hmin : min 1 (r + 1/100) = ((k : ℚ) + 1) / 100 := by
      rw [hsum, min_eq_right hle1]
    have hcond : r < min 1 (r + 1/100) := by
      rw [hmin, hr, div_lt_div_iff₀ (by norm_num : (0:ℚ) < 100) (by norm_num : (0:ℚ) < 100)]
      linarith
    rw [if_pos hcond, hmin]
    exact (min_eq_right hle1).symm

theorem fallbackRun_ratio (base extent : ℚ) (nows : Nat → ℚ) :
    ∀ (n k : Nat) (s : TrackerState), s.stage_ratio = min 1 ((k : ℚ) / 100) →
      (fallbackRun base extent nows n s).stage_ratio
        = min 1 (((k : ℚ) + (n : ℚ)) / 100)
  | 0, k, s, h => by
    rw [fallbackRun, h]
    norm_num
  | n + 1, k, s, h => by
    have hstep : (syntheticStep base extent s none none (nows n)).1.stage_ratio
        = min 1 (((k + 1 : Nat) : ℚ) / 100) := by
      rw [fallback_stage_ratio]
      rw [fallback_tick_min s.stage_ratio k h]
      push_cast
      ring_nf
    have hrec := fallbackRun_ratio base extent nows n (k + 1)
      (syntheticStep base extent s none none (nows n)).1 hstep
    rw [fallbackRun, hrec]
    push_cast
    ring_nf

/-- Claim C9: in the fallback branch (no duration and no frame estimate)
each synthetic tick below ratio 1 raises the stage ratio by exactly 1/100,
the ratio never decreases, never exceeds 1, and starting from a fresh
tracker the ratio after n ticks is min(1, n/100). -/
theorem c9_fallback_ticks (base extent : ℚ) (s : TrackerState) (now : ℚ)
    (t0 : ℚ) (nows : Nat → ℚ) (n : Nat) :
    (s.stage_ratio < 1 →
        (syntheticStep base extent s none none now).1.stage_ratio
          = min 1 (s.stage_ratio + 1/100)
        ∧ s.stage_ratio < (syntheticStep base extent s none none now).1.stage_ratio)
    ∧ s.stage_ratio ≤ (syntheticStep base extent s none none now).1.stage_ratio
    ∧ (s.stage_ratio ≤ 1 → (syntheticStep base extent s none none now).1.stage_ratio ≤ 1)
    ∧ (s.stage_ratio ≤ 99/100 → s.stage_ratio < 1 →
        (syntheticStep base extent s none none now).1.stage_ratio
          = s.stage_ratio + 1/100)
    ∧ (fallbackRun base extent nows n (TrackerState.init t0)).stage_ratio
        = min 1 ((n : ℚ) / 100) := by
  have hstep := fallback_stage_ratio base extent s now
  have hlt : s.stage_ratio < 1 → s.stage_ratio < min 1 (s.stage_ratio + 1/100) := by
    intro h1
    apply lt_min h1
    norm_num
  refine ⟨?_, ?_, ?_, ?_, ?_⟩
  · intro h1
    rw [hstep, if_pos (hlt h1)]
    exact ⟨rfl, hlt h1⟩
  · rw [hstep]
    split
    · exact le_of_lt (by assumption)
    · exact le_refl _
  · intro h1
    rw [hstep]
    split
    · exact min_le_left _ _
    · exact h1
  · intro h99 h1
    rw [hstep, if_pos (hlt h1), min_eq_right]
    linarith
  · have hrun := fallbackRun_ratio base extent nows n 0 (TrackerState.init t0) (by
      norm_num [TrackerState.init])
    rw [hrun]
    norm_num

def c2s0 : TrackerState := TrackerState.init 0

/-- First event of the refuting trace: a synthetic step taken 5 seconds
into a stage with a 10 second duration estimate, as the pipeline takes it
whenever no real update has arrived for at least 0.3 seconds. -/
def c2after1 : TrackerState × Option ℚ :=
  syntheticStep (1/20) (9/10) c2s0 (some 10000) none 5

/-- Second event of the refuting trace: the real progress line
out_time_ms=3000 arriving 0.3 seconds later. -/
def c2after2 : Bool × TrackerState × Option ℚ :=
  tryUpdateFromFfmpeg (1/20) (9/10) c2after1.1 "out_time_ms" "3000" none (some 10000) (53/10)

/-- Claim C2 refuted: within one stage, a synthetic step first emits
global ratio 1/2, then a real update accepted immediately afterwards
emits global ratio 8/25, which is smaller, so the emitted progress
sequence of a stage is not non-decreasing. -/
theorem c2_counterexample :
    needsSyntheticUpdate c2s0 5 (3/10) = true
    ∧ c2after1.2 = some (1/2)
    ∧ c2after2.1 = true
    ∧ c2after2.2.2 = some (8/25)
    ∧ ¬ ((1:ℚ)/2 ≤ 8/25) := by
  have hs1 : c2after1 = (⟨1/2, 1/2, 5, 0, 0, 0⟩, some (1/2)) := by
    norm_num [c2after1, c2s0, TrackerState.init, syntheticStep, syntheticTarget, emitStep,
      posOf]
  have h1 : pyStrip "3000" = "3000" := by decide
  have h2 : pyInt "3000" = some 3000 := by decide
  have hd : derivedRatio "out_time_ms" "3000" none (some 10000) = some (3/10) := by
    norm_num [derivedRatio, posOf, h1, h2]
  refine ⟨by norm_num [needsSyntheticUpdate, c2s0, TrackerState.init], by rw [hs1], ?_, ?_,
    by norm_num⟩
  · norm_num [c2after2, hs1, tryUpdateFromFfmpeg, hd, emitStep]
  · norm_num [c2after2, hs1, tryUpdateFromFfmpeg, hd, emitStep]

/-- Claim C2 as amended: an accepted real update never brings the stage
ratio below the last real anchor and keeps it at most 1, a synthetic step
never lowers the stage ratio, and the final overall progress delivered
for the last task of a successful run is exactly 1; but, as the
counterexample shows, a real update arriving after synthetic
extrapolation has raised the stage ratio beyond the last real anchor can
emit a lower value than the previous emission. -/
theorem c2_amended (base extent : ℚ) (s : TrackerState) (key valueText : String)
    (fe dm durationMs frameEstimate : Option Int) (now : ℚ) (N : Nat) :
    ((tryUpdateFromFfmpeg base extent s key valueText fe dm now).1 = true →
        s.last_real_ratio ≤ 1 →
        s.last_real_ratio ≤ (tryUpdateFromFfmpeg base extent s key valueText fe dm now).2.1.stage_ratio
        ∧ (tryUpdateFromFfmpeg base extent s key valueText fe dm now).2.1.stage_ratio ≤ 1)
    ∧ s.stage_ratio ≤ (syntheticStep base extent s durationMs frameEstimate now).1.stage_ratio
    ∧ (1 ≤ N → overallProgress N N 1 = 1) := by
  refine ⟨?_, ?_, ?_⟩
  · intro htrue hl1
    cases hd : derivedRatio key valueText fe dm with
    | none =>
      rw [show tryUpdateFromFfmpeg base extent s key valueText fe dm now = (false, s, none) by
        simp only [tryUpdateFromFfmpeg, hd]] at htrue
      simp at htrue
    | some p =>
      have hu := tryUpdate_some base extent s key valueText fe dm now p hd
      rw [hu.2.1]
      constructor
      · exact le_min hl1 (le_max_right _ _)
      · exact min_le_left _ _
  · simp only [syntheticStep]
    split
    · rw [emitStep_stage_ratio]
      exact le_of_lt (by assumption)
    · exact le_refl _
  · intro hN
    have hN0 : (0 : ℚ) < (N : ℚ) := by exact_mod_cast hN
    show min 1 (((N : ℚ) - 1 + max 0 (min 1 1)) / (N : ℚ)) = 1
    rw [show ((N : ℚ) - 1 + max 0 (min 1 1)) = (N : ℚ) by norm_num,
      div_self (ne_of_gt hN0)]
    norm_num

/-- Claim C3 refuted: the per-stage extent is 0.90 divided by the format
count, not (1 - preparation_allowance) / format_count = 0.95 / count, and
with two formats the two slices sum to 0.90, not to 1 - 0.05 = 0.95. -/
theorem c3_counterexample :
    formatExtent 2 ≠ (1 - prepBase) / 2
    ∧ formatExtent 2 + formatExtent 2 ≠ 1 - prepBase
    ∧ formatExtent 2 = 9/20 := by
  norm_num [formatExtent, prepBase, formatsExtent]

/-- Claim C3 as amended: each stage tracker gets extent 0.90 divided by
the format count and base 0.05 plus extent times the format index, so the
slices are equal, contiguous and non-overlapping and sum to the fixed
formats allowance 0.90 rather than to 1 - 0.05. -/
theorem c3_amended (n : Nat) (h : 1 ≤ n) :
    formatExtent n = (9/10) / (n : ℚ)
    ∧ (∀ i : Nat, stageBase n i = 1/20 + (9/10) / (n : ℚ) * (i : ℚ))
    ∧ (∀ i : Nat, stageBase n (i + 1) = stageBase n i + formatExtent n)
    ∧ 0 < formatExtent n
    ∧ (n : ℚ) * formatExtent n = 9/10
    ∧ stageBase 2 0 = 1/20
    ∧ stageBase 2 0 + formatExtent 2 = stageBase 2 1
    ∧ stageBase 2 1 + formatExtent 2 = 1/20 + 9/10 := by
  have hn : n ≠ 0 := by omega
  have hnq : (0 : ℚ) < (n : ℚ) := by exact_mod_cast Nat.pos_of_ne_zero hn
  have he : formatExtent n = (9/10) / (n : ℚ) := by
    simp [formatExtent, formatsExtent, hn]
  refine ⟨he, ?_, ?_, ?_, ?_, ?_, ?_, ?_⟩
  · intro i
    simp [stageBase, prepBase, he]
  · intro i
    simp only [stageBase]
    push_cast
    ring
  · rw [he]
    positivity
  · rw [he]
    field_simp
    ring
  · norm_num [stageBase, prepBase, formatExtent, formatsExtent]
  · norm_num [stageBase, prepBase, formatExtent, formatsExtent]
  · norm_num [stageBase, prepBase, formatExtent, formatsExtent]

theorem posOf_some (x : Option Int) (v : Int) (h : posOf x = some v) :
    x = some v ∧ 0 < v := by
  cases x with
  | none => simp [posOf] at h
  | some w =>
    by_cases hw : 0 < w
    · simp [posOf, hw] at h
      subst h
      exact ⟨rfl, hw⟩
    · simp [posOf, hw] at h

theorem apngLoop_est (w h : Int) (fps : ℚ) (fe : Int) :
    ∀ (fuel : Nat) (aF : ℚ) (aN : Int) (est : ℚ),
      est = (w : ℚ) * (h : ℚ) * (1/2) * (aN : ℚ) →
      (apngLoop w h fps fe fuel aF aN est).2.2
        = (w : ℚ) * (h : ℚ) * (1/2) * (((apngLoop w h fps fe fuel aF aN est).2.1 : ℚ))
  | 0, aF, aN, est, hinv => by
    simpa [apngLoop] using hinv
  | fuel + 1, aF, aN, est, hinv => by
    rw [apngLoop]
    split
    · exact apngLoop_est w h fps fe fuel _ _ _ rfl
    · simpa using hinv

set_option maxRecDepth 8000 in
/-- Claim C6: the APNG size heuristic leaves the parameters unchanged
when the estimate fits the 2 MiB budget, any returned frame cap is at
least 30, and on the inputs width 320, height 180, fps 30, frame estimate
600 it returns rate 6 and cap 72, whose estimated size fits the budget. -/
theorem c6_apng_params (w h : Int) (fps : ℚ) (fe : Option Int) :
    (∀ f, posOf fe = some f → (w : ℚ) * (h : ℚ) * (1/2) * (f : ℚ) ≤ apngBudgetBytes →
        calculateApngParams w h fps fe = (fps, none))
    ∧ (posOf fe = none → calculateApngParams w h fps fe = (fps, none))
    ∧ (∀ q n, calculateApngParams w h fps fe = (q, some n) → 30 ≤ n)
    ∧ calculateApngParams 320 180 30 (some 600) = (6, some 72)
    ∧ (320 : ℚ) * 180 * (1/2) * 72 ≤ apngBudgetBytes := by
  refine ⟨?_, ?_, ?_, ?_, ?_⟩
  · intro f hf hle
    simp only [calculateApngParams, hf]
    rw [if_pos hle]
  · intro hf
    simp only [calculateApngParams, hf]
  · intro q n hqn
    cases hf : posOf fe with
    | none => simp [calculateApngParams, hf] at hqn
    | some f =>
      obtain ⟨-, hfpos⟩ := posOf_some fe f hf
      simp only [calculateApngParams, hf] at hqn
      by_cases hbudget : (w : ℚ) * (h : ℚ) * (1/2) * (f : ℚ) ≤ apngBudgetBytes
      · rw [if_pos hbudget] at hqn
        simp at hqn
      · rw [if_neg hbudget] at hqn
        set r := apngLoop w h fps f 100 fps f ((w : ℚ) * (h : ℚ) * (1/2) * (f : ℚ)) with hr
        by_cases hbudget2 : r.2.2 ≤ apngBudgetBytes
        · rw [if_pos hbudget2] at hqn
          simp at hqn
        · rw [if_neg hbudget2] at hqn
          have hinv : r.2.2 = (w : ℚ) * (h : ℚ) * (1/2) * ((r.2.1 : ℚ)) := by
            rw [hr]
            exact apngLoop_est w h fps f 100 fps f _ rfl
          have hwh : (0 : ℚ) < (w : ℚ) * (h : ℚ) * (1/2) := by
            by_contra hcon
            push_neg at hcon
            apply hbudget
            have hf0 : (0 : ℚ) < (f : ℚ) := by exact_mod_cast hfpos
            have : (w : ℚ) * (h : ℚ) * (1/2) * (f : ℚ) ≤ 0 :=
              mul_nonpos_of_nonpos_of_nonneg hcon (le_of_lt hf0)
            calc (w : ℚ) * (h : ℚ) * (1/2) * (f : ℚ) ≤ 0 := this
              _ ≤ apngBudgetBytes := by norm_num [apngBudgetBytes]
          have hq : apngBudgetBytes / ((w : ℚ) * (h : ℚ) * (1/2)) < (r.2.1 : ℚ) := by
            rw [div_lt_iff₀ hwh]
            push_neg at hbudget2
            rw [hinv] at hbudget2
            linarith [hbudget2]
          have hq0 : (0 : ℚ) ≤ apngBudgetBytes / ((w : ℚ) * (h : ℚ) * (1/2)) := by
            apply div_nonneg _ (le_of_lt hwh)
            norm_num [apngBudgetBytes]
          have htr : pyTrunc (apngBudgetBytes / ((w : ℚ) * (h : ℚ) * (1/2)))
              = ⌊apngBudgetBytes / ((w : ℚ) * (h : ℚ) * (1/2))⌋ := by
            rw [pyTrunc, if_pos hq0]
          have hmf : pyTrunc (apngBudgetBytes / ((w : ℚ) * (h : ℚ) * (1/2))) < r.2.1 := by
            rw [htr]
            have hfloor : (⌊apngBudgetBytes / ((w : ℚ) * (h : ℚ) * (1/2))⌋ : ℚ)
                ≤ apngBudgetBytes / ((w : ℚ) * (h : ℚ) * (1/2)) := Int.floor_le _
            exact_mod_cast lt_of_le_of_lt hfloor hq
          rw [if_pos hmf] at hqn
          simp only [Prod.mk.injEq, Option.some.injEq] at hqn
          rw [← hqn.2]
          exact le_max_left _ _
  · norm_num [calculateApngParams, posOf, apngLoop, apngBudgetBytes, pyTrunc]
  · norm_num [apngBudgetBytes]

theorem convertFilesModel_error (req : RequestModel) (oracle : Nat → Nat → Int × String)
    (fs0 : List String) (e : PyExc) (he : (setupPhase req fs0).2 = .error e) :
    (convertFilesModel req oracle fs0).2.1 = []
    ∧ (convertFilesModel req oracle fs0).2.2 = .error e := by
  unfold convertFilesModel
  rcases hsp : setupPhase req fs0 with ⟨st, r⟩
  rw [hsp] at he
  simp only at he
  subst he
  simp

/-- Request used to refute claim C1: one task, a fresh output directory
and the unrecognized export format webm. -/
def c1req : RequestModel :=
  ⟨["clip"], "out", 320, 180, 12, "balanced", "center_crop", ["webm"]⟩

/-- Claim C1 refuted: on a request with an unrecognized export format and
an initially empty filesystem, convert_files does raise
InvalidExportFormat, but only after creating the output directory and the
output subdirectory, so the filesystem visible through the call has been
modified when the error is raised. -/
theorem c1_counterexample :
    (setupPhase c1req []).2 = .error (.invalidExportFormat ["webm"])
    ∧ (setupPhase c1req []).1.2 = ["out", "out/output"]
    ∧ (setupPhase c1req []).1.1 ≠ ([] : List String) := by
  refine ⟨rfl, rfl, by decide⟩

/-- Claim C1 as amended: an empty task list, an unrecognized export
format or an unrecognized scale mode each make convert_files raise the
corresponding configuration error (a ConverterError subclass) before any
external process is spawned, but the output directory tree built so far
is already on disk when the error is raised. -/
theorem c1_amended (req : RequestModel) (oracle : Nat → Nat → Int × String)
    (fs0 : List String) :
    (req.tasks = [] →
        (setupPhase req fs0).2 = .error (.converterError "未选择任何待转换任务"))
    ∧ (req.tasks ≠ [] →
        ∀ bad, (resolveExportFormats req.export_formats).filter
            (fun f => f ∉ validExportFormats) = bad → bad ≠ [] →
        (setupPhase req fs0).2 = .error (.invalidExportFormat bad))
    ∧ (req.tasks ≠ [] →
        (resolveExportFormats req.export_formats).filter (fun f => f ∉ validExportFormats) = [] →
        req.scale_mode ∉ validScaleModes →
        (setupPhase req fs0).2 = .error (.invalidScaleMode req.scale_mode))
    ∧ (∀ e, (setupPhase req fs0).2 = .error e →
        e.isConverterError = true
        ∧ (convertFilesModel req oracle fs0).2.1 = []
        ∧ (convertFilesModel req oracle fs0).2.2 = .error e) := by
  refine ⟨?_, ?_, ?_, ?_⟩
  · intro h
    simp only [setupPhase]
    rw [if_pos h]
  · intro ht bad hbad hbadne
    simp only [setupPhase]
    rw [if_neg ht, hbad, if_pos hbadne]
  · intro ht hfmt hscale
    simp only [setupPhase]
    rw [if_neg ht, hfmt, if_neg (by simp), if_pos hscale]
  · intro e he
    refine ⟨?_, (convertFilesModel_error req oracle fs0 e he).1,
      (convertFilesModel_error req oracle fs0 e he).2⟩
    simp only [setupPhase] at he
    split at he
    · simp only at he
      injection he with he2
      subst he2
      rfl
    · split at he
      · simp only at he
        injection he with he2
        subst he2
        rfl
      · split at he
        · simp only at he
          injection he with he2
          subst he2
          rfl
        · split at he
          · simp only at he
            injection he with he2
            subst he2
            rfl
          · simp at he

theorem failureMessage_contains (fmt name e : String) :
    containsStr (failureMessage fmt name e) name
    ∧ containsStr (failureMessage fmt name e) e
    ∧ containsStr (failureMessage fmt name e) (formatMarker fmt) := by
  by_cases hg : fmt = "gif"
  · subst hg
    refine ⟨⟨"转换 GIF 失败（".data,
        ("）：" ++ (if e = "" then "未知错误" else e)).data, ?_⟩, ?_, ?_⟩
    · simp [failureMessage, String.data_append, List.append_assoc]
    · by_cases he : e = ""
      · subst he
        exact ⟨(failureMessage "gif" name "").data, [], by simp⟩
      · refine ⟨("转换 GIF 失败（" ++ name ++ "）：").data, [], ?_⟩
        simp [failureMessage, he, String.data_append, List.append_assoc]
    · refine ⟨"转换 ".data,
        (" 失败（" ++ name ++ "）：" ++ (if e = "" then "未知错误" else e)).data, ?_⟩
      simp [failureMessage, formatMarker, String.data_append, List.append_assoc]
  · by_cases ha : fmt = "apng"
    · subst ha
      refine ⟨⟨"转换 APNG 失败（".data,
          ("）：" ++ (if e = "" then "未知错误" else e)).data, ?_⟩, ?_, ?_⟩
      · simp [failureMessage, String.data_append, List.append_assoc]
      · by_cases he : e = ""
        · subst he
          exact ⟨(failureMessage "apng" name "").data, [], by simp⟩
        · refine ⟨("转换 APNG 失败（" ++ name ++ "）：").data, [], ?_⟩
          simp [failureMessage, he, String.data_append, List.append_assoc]
      · refine ⟨"转换 ".data,
          (" 失败（" ++ name ++ "）：" ++ (if e = "" then "未知错误" else e)).data, ?_⟩
        simp [failureMessage, formatMarker, String.data_append, List.append_assoc]
    · refine ⟨⟨"导出 PNG 序列失败（".data,
          ("）：" ++ (if e = "" then "未知错误" else e)).data, ?_⟩, ?_, ?_⟩
      · simp [failureMessage, hg, ha, String.data_append, List.append_assoc]
      · by_cases he : e = ""
        · subst he
          exact ⟨(failureMessage fmt name "").data, [], by simp⟩
        · refine ⟨("导出 PNG 序列失败（" ++ name ++ "）：").data, [], ?_⟩
          simp [failureMessage, hg, ha, he, String.data_append, List.append_assoc]
      · refine ⟨"导出 ".data,
          ("失败（" ++ name ++ "）：" ++ (if e = "" then "未知错误" else e)).data, ?_⟩
        simp [failureMessage, formatMarker, hg, ha, String.data_append, List.append_assoc]

theorem runFmts_fail (oracle : Nat → Nat → Int × String) (ti : Nat) (name : String) :
    ∀ (fmts : List String) (fj : Nat) (f : StageFailure),
      (runFmts oracle ti name fj fmts).2 = some f →
      f.taskName = name ∧ f.taskIndex = ti ∧ f.fmt ∈ fmts
      ∧ (oracle f.taskIndex f.fmtIndex).1 ≠ 0
      ∧ (oracle f.taskIndex f.fmtIndex).2 = f.stderrText
      ∧ ∃ pre, (runFmts oracle ti name fj fmts).1 = pre ++ [(f.taskIndex, f.fmtIndex)]
  | [], fj, f, h => by simp [runFmts] at h
  | fmt :: rest, fj, f, h => by
    simp only [runFmts] at h ⊢
    by_cases hrc : (oracle ti fj).1 ≠ 0
    · rw [if_pos hrc] at h ⊢
      simp only [Option.some.injEq] at h
      subst h
      exact ⟨rfl, rfl, by simp, hrc, rfl, [], by simp⟩
    · rw [if_neg hrc] at h ⊢
      have ih := runFmts_fail oracle ti name rest (fj + 1) f h
      obtain ⟨h1, h2, h3, h4, h5, pre, hpre⟩ := ih
      exact ⟨h1, h2, by simp [h3], h4, h5, (ti, fj) :: pre, by simp [hpre]⟩

theorem runTasks_fail (oracle : Nat → Nat → Int × String) (fmts : List String) :
    ∀ (tasks : List String) (ti : Nat) (f : StageFailure),
      (runTasks oracle fmts ti tasks).2 = some f →
      f.taskName ∈ tasks ∧ f.fmt ∈ fmts
      ∧ (oracle f.taskIndex f.fmtIndex).1 ≠ 0
      ∧ (oracle f.taskIndex f.fmtIndex).2 = f.stderrText
      ∧ ∃ pre, (runTasks oracle fmts ti tasks).1 = pre ++ [(f.taskIndex, f.fmtIndex)]
  | [], ti, f, h => by simp [runTasks] at h
  | name :: rest, ti, f, h => by
    simp only [runTasks] at h ⊢
    cases hfr : (runFmts oracle ti name 0 fmts).2 with
    | some g =>
      rw [hfr] at h
      have hgf : g = f := by simpa using h
      subst hgf
      obtain ⟨h1, h2, h3, h4, h5, pre, hpre⟩ := runFmts_fail oracle ti name fmts 0 g hfr
      refine ⟨by simp [h1], h3, h4, h5, pre, ?_⟩
      simpa using hpre
    | none =>
      rw [hfr] at h
      have hrest : (runTasks oracle fmts (ti + 1) rest).2 = some f := by simpa using h
      obtain ⟨h1, h2, h3, h4, pre, hpre⟩ := runTasks_fail oracle fmts rest (ti + 1) f hrest
      refine ⟨by simp [h1], h2, h3, h4,
        (runFmts oracle ti name 0 fmts).1 ++ pre, ?_⟩
      simp [hpre, List.append_assoc]

/-- Claim C8: a non-zero exit of the external process aborts the batch
with a ConverterError whose message contains the task display name, the
marker of the format being produced and the captured diagnostic stream,
and the failing stage is the last stage launched: no later format or task
is processed. -/
theorem c8_failure_abort (oracle : Nat → Nat → Int × String) (fmts tasks : List String)
    (ti : Nat) (f : StageFailure)
    (h : (runTasks oracle fmts ti tasks).2 = some f) :
    f.taskName ∈ tasks ∧ f.fmt ∈ fmts
    ∧ (oracle f.taskIndex f.fmtIndex).1 ≠ 0
    ∧ (oracle f.taskIndex f.fmtIndex).2 = f.stderrText
    ∧ (∃ pre, (runTasks oracle fmts ti tasks).1 = pre ++ [(f.taskIndex, f.fmtIndex)])
    ∧ containsStr (failureMessage f.fmt f.taskName f.stderrText) f.taskName
    ∧ containsStr (failureMessage f.fmt f.taskName f.stderrText) f.stderrText
    ∧ containsStr (failureMessage f.fmt f.taskName f.stderrText) (formatMarker f.fmt)
    ∧ (∀ req fs0, req.tasks = tasks →
        (setupPhase req fs0).2 = .ok fmts → ti = 1 →
        (convertFilesModel req oracle fs0).2.2
          = .error (.converterError (failureMessage f.fmt f.taskName f.stderrText))) := by
  have ht := runTasks_fail oracle fmts tasks ti f h
  have hm := failureMessage_contains f.fmt f.taskName f.stderrText
  refine ⟨ht.1, ht.2.1, ht.2.2.1, ht.2.2.2.1, ht.2.2.2.2, hm.1, hm.2.1, hm.2.2, ?_⟩
  intro req fs0 htasks hok hti
  subst htasks
  subst hti
  unfold convertFilesModel
  rcases hsp : setupPhase req fs0 with ⟨st, r⟩
  rw [hsp] at hok
  simp only at hok
  subst hok
  simp only [h]

theorem c1_witness :
    (setupPhase ⟨["clip"], "outdir", 320, 180, 12, "balanced", "diag", ["gif"]⟩ []).2
      = .error (.invalidScaleMode "diag") :=
  (c1_amended ⟨["clip"], "outdir", 320, 180, 12, "balanced", "diag", ["gif"]⟩
    (fun _ _ => (0, "")) []).2.2.1 (by decide) (by decide) (by decide)

theorem c2_witness : overallProgress 1 1 1 = 1 :=
  (c2_amended 0 1 (TrackerState.init 0) "" "" none none none none 0 1).2.2 (by norm_num)

theorem c3_witness : formatExtent 2 = (9/10) / ((2 : Nat) : ℚ) :=
  (c3_amended 2 (by norm_num)).1

theorem c4_witness :
    (((2 : Nat) : ℚ) - 1) / ((3 : Nat) : ℚ) ≤ overallProgress 2 3 (1/2)
    ∧ overallProgress 2 3 (1/2) ≤ ((2 : Nat) : ℚ) / ((3 : Nat) : ℚ) :=
  ⟨(c4_overall_progress 2 3 (1/2) (by norm_num) (by norm_num)).2.2.1,
   (c4_overall_progress 2 3 (1/2) (by norm_num) (by norm_num)).2.2.2⟩

theorem c5_witness :
    (tryUpdateFromFfmpeg 0 1 (TrackerState.init 0) "progress" "end" none none 1).1 = true :=
  (c5_real_update 0 1 (TrackerState.init 0) "progress" "end" none none 1 1 (by decide)).1.1

theorem c6_witness : calculateApngParams 1 1 10 (some 1) = (10, none) :=
  (c6_apng_params 1 1 10 (some 1)).1 1 (by decide) (by norm_num [apngBudgetBytes])

theorem c8_witness :
    containsStr (failureMessage "gif" "任务A" "boom") "任务A" :=
  (c8_failure_abort (fun i j => if i = 1 ∧ j = 0 then (1, "boom") else (0, ""))
    ["gif"] ["任务A"] 1 ⟨1, 0, "gif", "任务A", "boom"⟩ (by decide)).2.2.2.2.2.1

theorem c9_witness :
    (syntheticStep 0 1 (TrackerState.init 0) none none 0).1.stage_ratio
      = min 1 ((TrackerState.init 0).stage_ratio + 1/100) :=
  ((c9_fallback_ticks 0 1 (TrackerState.init 0) 0 0 (fun _ => 0) 0).1
    (by norm_num [TrackerState.init])).1

theorem c10_witness :
    tryUpdateFromFfmpeg 0 1 (TrackerState.init 0) "speed" "1.5x" none none 0
      = (false, TrackerState.init 0, none) :=
  (c10_rejected_update 0 1 (TrackerState.init 0) "speed" "1.5x" none none 0).1 (by decide)

end ConvertVideos
